import Mathlib

/-!
Verification development for the database-dump utility (`src/main.rs`).

The Rust program is shallowly embedded below: every emitted statement line
is reconstructed as a Lean `String`, the per-cell extraction results that
`tokio_postgres::Row::try_get` can return are modelled as `Option`-valued
fields of a `Cell` structure, fallible catalog queries are modelled with
`Except`/`Option`, and the connection retry loop is modelled as a pure
recursion over a function giving the outcome of each connection attempt.
-/

namespace DbDump

/-- Character-list test that the first list is an initial segment of the second. -/
def charsLead : List Char → List Char → Bool
  | [], _ => true
  | _ :: _, [] => false
  | a :: as, b :: bs => a == b && charsLead as bs

/-- Model of Rust `s.starts_with(p)`. -/
def strStarts (s p : String) : Bool := charsLead p.data s.data

/-- Character-list test that the first list occurs contiguously inside the second. -/
def charsWithin (pat : List Char) : List Char → Bool
  | [] => pat.isEmpty
  | a :: rest => charsLead pat (a :: rest) || charsWithin pat rest

/-- Model of Rust `s.contains(p)` (substring containment). -/
def containsSub (s p : String) : Bool := charsWithin p.data s.data

/-- Model of Rust `s.replace("'", "''")`: double every embedded single quote. -/
def escQuotes (s : String) : String := ⟨s.data.flatMap (fun c => if c = '\'' then [c, c] else [c])⟩

/-- One table cell as the program sees it: the result of each `try_get`
extraction attempted in `dump_tables_to` (lines 384-411 of `src/main.rs`).
`none` models `Err(_)` (the cell does not accept that representation);
for the two `Option`-typed extractions, `some none` models `Ok(None)`,
i.e. SQL NULL. `asF64` stores the rendered text of the extracted float. -/
structure Cell where
  asStrOpt : Option (Option String)
  asI32 : Option Int
  asI64 : Option Int
  asF64 : Option String
  asBool : Option Bool
  asStringOpt : Option (Option String)
deriving DecidableEq

/-- The declared-type test at line 386-387 of `src/main.rs`:
`col_type.contains("char") || col_type == "text" || col_type.contains("time") || col_type.contains("date")`. -/
def isStringFamily (t : String) : Bool :=
  containsSub t "char" || t == "text" || containsSub t "time" || containsSub t "date"

/-- The Value Encoder: the `match row.try_get::<_, Option<&str>>(i)` expression
of `dump_tables_to` (lines 384-412 of `src/main.rs`), translated branch by branch. -/
def encode (c : Cell) (colType : String) : String :=
  match c.asStrOpt with
  | some (some val) =>
    if isStringFamily colType then "'" ++ escQuotes val ++ "'" else val
  | some none => "NULL"
  | none =>
    match c.asI32 with
    | some v => toString v
    | none =>
      match c.asI64 with
      | some v => toString v
      | none =>
        match c.asF64 with
        | some v => v
        | none =>
          match c.asBool with
          | some b => if b then "TRUE" else "FALSE"
          | none =>
            match c.asStringOpt with
            | some (some val) => "'" ++ escQuotes val ++ "'"
            | _ => "NULL"

/-- A cell holding SQL NULL: every non-`Option` extraction fails, and each
`Option`-typed extraction either fails outright (type mismatch) or reports
`Ok(None)`. -/
def IsNull (c : Cell) : Prop :=
  (c.asStrOpt = none ∨ c.asStrOpt = some none) ∧ c.asI32 = none ∧ c.asI64 = none ∧
    c.asF64 = none ∧ c.asBool = none ∧ (c.asStringOpt = none ∨ c.asStringOpt = some none)

instance (c : Cell) : Decidable (IsNull c) := by unfold IsNull; infer_instance

/-- Modelled from the spec (§4.3): the ordered candidate representations the
Value Encoder is claimed to try — native string pass-through, 32-bit integer,
64-bit integer, double-precision float, boolean rendered TRUE/FALSE, then
string with quoting. -/
def claimCandidates (c : Cell) : List (Option String) :=
  [ (match c.asStrOpt with | some (some v) => some v | _ => none),
    c.asI32.map toString,
    c.asI64.map toString,
    c.asF64,
    c.asBool.map (fun b => if b then "TRUE" else "FALSE"),
    (match c.asStringOpt with | some (some v) => some ("'" ++ escQuotes v ++ "'") | _ => none) ]

/-- Modelled from the spec (§4.3): use the first successful candidate,
`NULL` when all fail. -/
def firstHit : List (Option String) → String
  | [] => "NULL"
  | some s :: _ => s
  | none :: rest => firstHit rest

/-- One column of a table, as produced by the column catalog query of
`dump_tables_to` (lines 223-251 of `src/main.rs`). -/
structure Column where
  name : String
  dataType : String
  maxLength : Option Int
  notNull : Bool
  defaultExpr : Option String
deriving DecidableEq

/-- One foreign key, as produced by the information_schema query of
`dump_tables_to` (lines 325-352), fields in column order. -/
structure ForeignKey where
  constraintName : String
  columnName : String
  foreignTable : String
  foreignColumn : String
  deleteRule : String
  updateRule : String
deriving DecidableEq

/-- One table together with the results of every per-table catalog query
`dump_tables_to` issues for it, in the order the queries return them. -/
structure Table where
  name : String
  columns : List Column
  pkColumns : List String
  indexDefs : List String
  fks : List ForeignKey
  rows : List (List Cell)
deriving DecidableEq

/-- The column-definition fragment built at lines 253-274 of `src/main.rs`. -/
def columnDef (col : Column) : String :=
  let base := "  " ++ col.name
  let base :=
    if containsSub col.dataType "character varying" && col.maxLength.isSome then
      base ++ " varchar(" ++ toString (col.maxLength.getD 0) ++ ")"
    else if containsSub col.dataType "character" && col.maxLength.isSome then
      base ++ " char(" ++ toString (col.maxLength.getD 0) ++ ")"
    else
      base ++ " " ++ col.dataType
  let base := if col.notNull then base ++ " NOT NULL" else base
  match col.defaultExpr with
  | some d => base ++ " DEFAULT " ++ d
  | none => base

/-- The ALTER TABLE ... ADD CONSTRAINT line built at lines 354-357 of
`src/main.rs` (update rule before delete rule, as in the format string). -/
def fkAlterLine (tableName : String) (fk : ForeignKey) : String :=
  "ALTER TABLE ONLY " ++ tableName ++ " ADD CONSTRAINT " ++ fk.constraintName ++
    " FOREIGN KEY (" ++ fk.columnName ++ ") REFERENCES " ++ fk.foreignTable ++
    " (" ++ fk.foreignColumn ++ ") ON UPDATE " ++ fk.updateRule ++
    " ON DELETE " ++ fk.deleteRule ++ ";"

/-- The INSERT line built at lines 377-420: cells are paired with columns by
index; an out-of-range index makes every `try_get` fail, yielding NULL. -/
def insertLine (t : Table) (row : List Cell) : String :=
  "INSERT INTO " ++ t.name ++ " (" ++
    String.intercalate ", " (t.columns.map Column.name) ++ ") VALUES (" ++
    String.intercalate ", " (t.columns.enum.map (fun p =>
      match row.get? p.1 with
      | some c => encode c p.2.dataType
      | none => "NULL")) ++ ");"

/-- All lines one iteration of the table loop (lines 215-425 of
`src/main.rs`) writes for a table: CREATE TABLE, blank, index definitions
(each written with a trailing extra newline), foreign-key ALTER statements,
blank, data comment, INSERT lines, blank — all inside the same iteration. -/
def tableLines (t : Table) : List String :=
  ("-- Table: " ++ t.name) ::
  ("CREATE TABLE " ++ t.name ++ " (") ::
  (String.intercalate ",\n" (t.columns.map columnDef ++
    (if t.pkColumns.isEmpty then [] else
      ["  PRIMARY KEY (" ++ String.intercalate ", " t.pkColumns ++ ")"]))) ::
  ");" ::
  "" ::
  (t.indexDefs.map (fun d => d ++ ";\n") ++
   t.fks.map (fkAlterLine t.name) ++
   "" ::
   ("-- Data for table: " ++ t.name) ::
   t.rows.map (insertLine t) ++
   [""])

/-- The table loop over the catalog's table list (ordered by name). -/
def tablesSection (ts : List Table) : List String := ts.flatMap tableLines

/-- Result of the four `try_get` calls on the sequence-parameter row
(lines 194-197): `none` models a failed extraction. -/
structure SeqRow where
  startVal : Option Int
  minVal : Option Int
  maxVal : Option Int
  incrVal : Option Int
deriving DecidableEq

/-- One sequence name together with the outcome of its `query_one`
parameter lookup: `Except.error` models a failed query (for example zero
rows returned), which the `?` operator turns into an abort. -/
structure SeqInfo where
  name : String
  lookup : Except String SeqRow

/-- The CREATE SEQUENCE statement of lines 199-200, each parameter taken
with `unwrap_or` of its default. -/
def seqStatement (name : String) (r : SeqRow) : String :=
  "CREATE SEQUENCE " ++ name ++ " START WITH " ++ toString (r.startVal.getD 1) ++
    " INCREMENT BY " ++ toString (r.incrVal.getD 1) ++ " MINVALUE " ++ toString (r.minVal.getD 1) ++
    " MAXVALUE " ++ toString (r.maxVal.getD 2147483647) ++ ";"

/-- The sequence loop of `dump_tables_to` (lines 175-202): the comment line
is written before the parameter lookup; a failed `query_one` aborts the run
via `?`. Returns the lines written and the aborting error, if any. -/
def seqSection : List SeqInfo → List String × Option String
  | [] => ([], none)
  | s :: rest =>
    match s.lookup with
    | .error e => (["-- Sequence: " ++ s.name], some e)
    | .ok row =>
      (("-- Sequence: " ++ s.name) :: seqStatement s.name row :: "" :: (seqSection rest).1,
        (seqSection rest).2)

/-- One enum type with its labels; a label is `none` when both the `String`
and the `&str` extraction fail, in which case the code skips it. -/
structure EnumType where
  name : String
  labels : List (Option String)
deriving DecidableEq

/-- The enum-type loop of `dump_tables_to` (lines 124-162). -/
def enumTypeLines (ty : EnumType) : List String :=
  let values := ty.labels.filterMap (fun l => l.map (fun v => "'" ++ v ++ "'"))
  ("-- Custom Type: " ++ ty.name) ::
    (if values.isEmpty then
      ["-- Warning: Could not retrieve enum values for type " ++ ty.name, ""]
    else
      ["CREATE TYPE " ++ ty.name ++ " AS ENUM (" ++ String.intercalate ", " values ++ ");", ""])

/-- The fixed session-directive header of `dump_tables_to` (lines 105-111). -/
def tablesHeaderLines : List String :=
  ["-- Tables, sequences, data types, and table data",
   "SET client_encoding = 'UTF8';",
   "SET standard_conforming_strings = on;",
   "SET check_function_bodies = false;",
   "SET client_min_messages = warning;",
   "SET search_path = public, pg_catalog;",
   ""]

/-- Model of `dump_tables_to` (lines 104-428): headers, enum types, sequences, then
the single per-table pass; a failed sequence-parameter lookup aborts before
any table is emitted. -/
def dumpTablesTo (types : List EnumType) (seqs : List SeqInfo) (tables : List Table) :
    List String × Option String :=
  let pre := tablesHeaderLines ++ types.flatMap enumTypeLines
  match seqSection seqs with
  | (ls, some e) => (pre ++ ls, some e)
  | (ls, none) => (pre ++ ls ++ tablesSection tables, none)

theorem seqStatement_defaults (name : String) :
    seqStatement name ⟨none, none, none, none⟩
      = "CREATE SEQUENCE " ++ name ++ " START WITH 1 INCREMENT BY 1 MINVALUE 1 MAXVALUE 2147483647;" := by
  unfold seqStatement
  simp only [String.append_assoc]
  exact congrArg (fun z => "CREATE SEQUENCE " ++ (name ++ z)) (by decide)

/-- C3 fails as stated: a sequence whose parameter lookup yields nothing
(the `query_one` call fails, for example because the query returns zero
rows) aborts the whole run through the `?` operator, and no CREATE SEQUENCE
statement is emitted for it, instead of falling back to the defaults. -/
theorem c3_sequence_defaults_counterexample :
    (dumpTablesTo [] [⟨"s1", .error "unexpected number of rows"⟩] []).2
        = some "unexpected number of rows" ∧
    ((dumpTablesTo [] [⟨"s1", .error "unexpected number of rows"⟩] []).1.all
        (fun l => !strStarts l "CREATE SEQUENCE")) = true :=
  ⟨by decide, by decide⟩

/-- C3 (amended): when the parameter row is retrieved but none of its four
parameter values can be extracted, the run does not abort on that sequence;
the emitted statement is CREATE SEQUENCE name START WITH 1 INCREMENT BY 1
MINVALUE 1 MAXVALUE 2147483647, and processing continues with the remaining
sequences. -/
theorem c3_sequence_defaults (name : String) (rest : List SeqInfo) :
    seqSection (⟨name, .ok ⟨none, none, none, none⟩⟩ :: rest)
      = (("-- Sequence: " ++ name) ::
          ("CREATE SEQUENCE " ++ name ++ " START WITH 1 INCREMENT BY 1 MINVALUE 1 MAXVALUE 2147483647;") ::
          "" :: (seqSection rest).1,
         (seqSection rest).2) := by
  simp [seqSection, seqStatement_defaults]

/-- Table `a` references table `b`; with the catalog's alphabetical table
order, `a` is processed first. -/
def cexFk : ForeignKey := ⟨"a_b_fk", "b_id", "b", "id", "NO ACTION", "NO ACTION"⟩

def cexTableA : Table :=
  ⟨"a", [⟨"id", "integer", none, false, none⟩, ⟨"b_id", "integer", none, false, none⟩],
    ["id"], [], [cexFk], []⟩

def cexTableB : Table := ⟨"b", [⟨"id", "integer", none, false, none⟩], ["id"], [], [], []⟩

theorem tableLines_fk_split (t : Table) (fk : ForeignKey) (hfk : fk ∈ t.fks) :
    ∃ v w, tableLines t
      = ("-- Table: " ++ t.name) :: ("CREATE TABLE " ++ t.name ++ " (") ::
          v ++ fkAlterLine t.name fk :: w := by
  obtain ⟨s, u, hsu⟩ := List.append_of_mem hfk
  refine ⟨(String.intercalate ",\n" (t.columns.map columnDef ++
      (if t.pkColumns.isEmpty then [] else
        ["  PRIMARY KEY (" ++ String.intercalate ", " t.pkColumns ++ ")"]))) ::
    ");" :: "" :: (t.indexDefs.map (fun d => d ++ ";\n") ++ s.map (fkAlterLine t.name)),
    u.map (fkAlterLine t.name) ++ "" :: ("-- Data for table: " ++ t.name) ::
      t.rows.map (insertLine t) ++ [""], ?_⟩
  simp [tableLines, hsu, List.map_append, List.append_assoc]

/-- C1 fails as stated: in the dump of tables `a` (holding a foreign key
referencing `b`) and `b`, enumerated in the catalog's alphabetical order,
the ALTER TABLE ... ADD CONSTRAINT statement for `a` is emitted before the
CREATE TABLE statement for `b`, because foreign-key statements are emitted
inside each table's own loop iteration, not in a deferred second pass. -/
theorem c1_fk_ordering_counterexample :
    ("CREATE TABLE b (") ∈ (dumpTablesTo [] [] [cexTableA, cexTableB]).1 ∧
    ("ALTER TABLE ONLY a ADD CONSTRAINT a_b_fk FOREIGN KEY (b_id) REFERENCES b (id) ON UPDATE NO ACTION ON DELETE NO ACTION;")
      ∈ (dumpTablesTo [] [] [cexTableA, cexTableB]).1 ∧
    (dumpTablesTo [] [] [cexTableA, cexTableB]).1.indexOf
        "ALTER TABLE ONLY a ADD CONSTRAINT a_b_fk FOREIGN KEY (b_id) REFERENCES b (id) ON UPDATE NO ACTION ON DELETE NO ACTION;"
      < (dumpTablesTo [] [] [cexTableA, cexTableB]).1.indexOf "CREATE TABLE b (" :=
  ⟨by decide, by decide, by decide⟩

/-- C1 (amended): each table's foreign-key ALTER TABLE ... ADD CONSTRAINT
statements are emitted in the same single pass, inside that table's own
block after its CREATE TABLE; hence the referenced table's CREATE TABLE
precedes the referencing table's ALTER TABLE exactly when the referenced
table either is the referencing table itself or is enumerated before it. -/
theorem c1_fk_ordering (ts : List Table) (t1 t2 : Table) (fk : ForeignKey)
    (hfk : fk ∈ t1.fks) (href : fk.foreignTable = t2.name)
    (horder : (∃ pre mid post, ts = pre ++ t2 :: mid ++ t1 :: post) ∨ (t2 = t1 ∧ t1 ∈ ts)) :
    ∃ u v w, tablesSection ts
      = u ++ ("CREATE TABLE " ++ t2.name ++ " (") :: v ++ fkAlterLine t1.name fk :: w := by
  obtain ⟨v1, w1, hsplit⟩ := tableLines_fk_split t1 fk hfk
  have hT2 : tableLines t2
      = ("-- Table: " ++ t2.name) :: ("CREATE TABLE " ++ t2.name ++ " (") ::
          (tableLines t2).drop 2 := rfl
  rcases horder with ⟨pre, mid, post, hts⟩ | ⟨heq, hmem⟩
  · refine ⟨tablesSection pre ++ ["-- Table: " ++ t2.name],
      (tableLines t2).drop 2 ++ tablesSection mid ++
        ("-- Table: " ++ t1.name) :: ("CREATE TABLE " ++ t1.name ++ " (") :: v1,
      w1 ++ tablesSection post, ?_⟩
    rw [hts]
    simp only [tablesSection, List.flatMap_append, List.flatMap_cons]
    conv_lhs => rw [hT2, hsplit]
    simp [List.append_assoc]
  · subst heq
    obtain ⟨sL, uL, hts⟩ := List.append_of_mem hmem
    refine ⟨tablesSection sL ++ ["-- Table: " ++ t2.name], v1, w1 ++ tablesSection uL, ?_⟩
    rw [hts]
    simp only [tablesSection, List.flatMap_append, List.flatMap_cons]
    conv_lhs => rw [hsplit]
    simp [List.append_assoc]

/-- C1 witness: with the referenced table enumerated first, the amended
ordering holds on a concrete dump. -/
theorem c1_fk_ordering_witness :
    ∃ u v w, tablesSection [cexTableB, cexTableA]
      = u ++ ("CREATE TABLE " ++ cexTableB.name ++ " (") :: v ++
          fkAlterLine cexTableA.name cexFk :: w :=
  c1_fk_ordering [cexTableB, cexTableA] cexTableA cexTableB cexFk (by decide) (by decide)
    (.inl ⟨[], [], [], rfl⟩)

/-- C5 fails as stated: the declared type name `citext` contains the `text`
family marker and the cell's value `O'Brien` is present as a native string,
yet the encoder passes the value through unquoted, because the code compares
the declared type against `text` by equality, not containment. -/
theorem c5_marker_quoting_counterexample :
    containsSub "citext" "text" = true ∧
    encode ⟨some (some "O'Brien"), none, none, none, none, none⟩ "citext" = "O'Brien" ∧
    ("O'Brien" : String) ≠ "'O''Brien'" :=
  ⟨by decide, by decide, by decide⟩

/-- C5 (amended): for every cell whose value is present as a native string and
whose declared type name contains `char`, `time`, or `date`, or is exactly
`text`, the Value Encoder returns the value wrapped in single quotes with
every embedded single quote doubled. -/
theorem c5_marker_quoting (c : Cell) (t v : String)
    (hv : c.asStrOpt = some (some v)) (ht : isStringFamily t = true) :
    encode c t = "'" ++ escQuotes v ++ "'" := by
  unfold encode
  rw [hv]
  simp [ht]

/-- C5 witness: encoding the text O'Brien under declared type character
varying yields 'O''Brien'. -/
theorem c5_marker_quoting_witness :
    encode ⟨some (some "O'Brien"), none, none, none, none, none⟩ "character varying" = "'O''Brien'" := by
  rw [c5_marker_quoting ⟨some (some "O'Brien"), none, none, none, none, none⟩
    "character varying" "O'Brien" rfl (by decide)]
  decide

/-- C6: for every absent (SQL NULL) cell, regardless of its declared type, the
Value Encoder returns exactly the four-character text NULL. -/
theorem c6_null_encodes_null (c : Cell) (t : String) (h : IsNull c) :
    encode c t = "NULL" := by
  obtain ⟨h1, h2, h3, h4, h5, h6⟩ := h
  rcases h1 with h1 | h1
  · rcases h6 with h6 | h6 <;> simp [encode, h1, h2, h3, h4, h5, h6]
  · simp [encode, h1]

/-- C6 witness: a NULL cell in a column of declared type integer encodes to
the literal NULL, not to an empty or quoted-empty string. -/
theorem c6_null_encodes_null_witness :
    IsNull ⟨some none, none, none, none, none, some none⟩ ∧
    encode ⟨some none, none, none, none, none, some none⟩ "integer" = "NULL" ∧
    ("NULL" : String) ≠ "" ∧ ("NULL" : String) ≠ "''" :=
  ⟨by decide, c6_null_encodes_null ⟨some none, none, none, none, none, some none⟩ "integer" (by decide),
    by decide, by decide⟩

/-- C7: for every present cell whose declared type carries no
character/text/time/date marker, the Value Encoder returns the first
representation, in the fixed order native string pass-through, 32-bit
integer, 64-bit integer, double-precision float, boolean rendered
TRUE/FALSE, then string with quoting, that the cell accepts, and the
literal NULL when all of them fail. -/
theorem c7_fallback_order (c : Cell) (t : String)
    (hpresent : c.asStrOpt ≠ some none) (ht : isStringFamily t = false) :
    encode c t = firstHit (claimCandidates c) := by
  obtain ⟨s, i32, i64, f8, bb, so⟩ := c
  rcases s with _ | _ | v
  · rcases i32 with _ | v32
    · rcases i64 with _ | v64
      · rcases f8 with _ | vf
        · rcases bb with _ | vb
          · rcases so with _ | _ | vs <;> simp [encode, claimCandidates, firstHit]
          · simp [encode, claimCandidates, firstHit]
        · simp [encode, claimCandidates, firstHit]
      · simp [encode, claimCandidates, firstHit]
    · simp [encode, claimCandidates, firstHit]
  · exact absurd rfl hpresent
  · simp [encode, claimCandidates, firstHit, ht]

/-- C7 witness: a present cell that only accepts the 64-bit integer
representation, under declared type integer, encodes to that representation,
matching the ordered-fallback specification. -/
theorem c7_fallback_order_witness :
    (⟨none, none, some 7, none, none, none⟩ : Cell).asStrOpt ≠ some none ∧
    isStringFamily "integer" = false ∧
    encode ⟨none, none, some 7, none, none, none⟩ "integer"
      = firstHit (claimCandidates ⟨none, none, some 7, none, none, none⟩) :=
  ⟨by decide, by decide, c7_fallback_order ⟨none, none, some 7, none, none, none⟩ "integer" (by decide) (by decide)⟩

/-- One role row together with the results of every per-role query
`dump_users_and_roles_to` issues (lines 446-606 of `src/main.rs`), fields
in the role query's column order. `pwdRow` models `query_opt` on
`pg_authid`: `none` is a failed query or no row (both skipped), `some none`
a row whose password column is NULL, `some (some p)` a row holding `p`. -/
structure Role where
  rolname : String
  rolsuper : Bool
  rolinherit : Bool
  rolcreaterole : Bool
  rolcreatedb : Bool
  rolcanlogin : Bool
  rolreplication : Bool
  memberof : List String
  description : Option String
  rolconnlimit : Int
  pwdRow : Option (Option String)
  schemaPrivs : List (String × List String)
  tablePrivs : List (String × String × List String)
deriving DecidableEq

/-- The CREATE ROLE statement assembled at lines 479-521 of `src/main.rs`:
six explicit flag pairs, then a CONNECTION LIMIT clause only when the
connection limit is nonnegative. -/
def createRoleStmt (r : Role) : String :=
  "CREATE ROLE " ++ r.rolname ++
    (if r.rolsuper then " SUPERUSER" else " NOSUPERUSER") ++
    (if r.rolinherit then " INHERIT" else " NOINHERIT") ++
    (if r.rolcreaterole then " CREATEROLE" else " NOCREATEROLE") ++
    (if r.rolcreatedb then " CREATEDB" else " NOCREATEDB") ++
    (if r.rolcanlogin then " LOGIN" else " NOLOGIN") ++
    (if r.rolreplication then " REPLICATION" else " NOREPLICATION") ++
    (if 0 ≤ r.rolconnlimit then " CONNECTION LIMIT " ++ toString r.rolconnlimit else "") ++
    ";"

/-- The password block of lines 524-537: an ALTER ROLE statement only when a
password row is visible and its value starts with the md5 prefix. -/
def pwdLines (r : Role) : List String :=
  match r.pwdRow with
  | some (some p) =>
    if strStarts p "md5" then
      ["ALTER ROLE " ++ r.rolname ++ " WITH ENCRYPTED PASSWORD '" ++ p ++ "';"]
    else []
  | _ => []

/-- The membership GRANT of lines 539-542. -/
def memberLines (r : Role) : List String :=
  if r.memberof.isEmpty then []
  else ["GRANT " ++ String.intercalate ", " r.memberof ++ " TO " ++ r.rolname ++ ";"]

/-- The role comment of lines 544-549. -/
def descLines (r : Role) : List String :=
  match r.description with
  | some d => ["COMMENT ON ROLE " ++ r.rolname ++ " IS '" ++ escQuotes d ++ "';"]
  | none => []

/-- The schema-privilege GRANT line of lines 568-576. -/
def schemaPrivLine (rolname : String) (p : String × List String) : String :=
  "GRANT " ++ String.intercalate ", " p.2 ++ " ON SCHEMA " ++ p.1 ++ " TO " ++ rolname ++ ";"

/-- The table-privilege GRANT line of lines 597-606. -/
def tablePrivLine (rolname : String) (p : String × String × List String) : String :=
  "GRANT " ++ String.intercalate ", " p.2.2 ++ " ON TABLE " ++ p.1 ++ "." ++ p.2.1 ++
    " TO " ++ rolname ++ ";"

/-- All lines one iteration of the role loop writes for a non-skipped role. -/
def roleBlock (r : Role) : List String :=
  ("-- Role: " ++ r.rolname) :: createRoleStmt r ::
    (pwdLines r ++ memberLines r ++ descLines r ++
      "" :: (r.schemaPrivs.map (schemaPrivLine r.rolname) ++
        r.tablePrivs.map (tablePrivLine r.rolname) ++ [""]))

/-- The role loop (lines 460-609): a role whose name starts with pg_ is
skipped before anything is written for it. -/
def rolesLoop (roles : List Role) : List String :=
  roles.flatMap (fun r => if strStarts r.rolname "pg_" then [] else roleBlock r)

/-- Model of `dump_users_and_roles_to` (lines 430-612): section header; when the
probe query on pg_roles fails, two warning comment lines and a successful
return; otherwise the role query runs (its failure aborts through `?`) and
every role is rendered. Returns the lines written and the aborting error. -/
def dumpUsersAndRolesTo (probeOk : Bool) (rolesQ : Except String (List Role)) :
    List String × Option String :=
  let header := ["-- Users, roles and permissions", ""]
  if !probeOk then
    (header ++
      ["-- Warning: No access to role information. Skipping user and role dump.",
       "-- You may need superuser privileges to dump roles."], none)
  else
    match rolesQ with
    | .error e => (header, some e)
    | .ok roles => (header ++ rolesLoop roles, none)

/-- C2 fails as stated: when the probe query fails, the serializer writes
two comment lines after the section header (the warning and a privilege
hint), not exactly one warning comment line; the rest of the claim holds. -/
theorem c2_probe_warning_counterexample :
    dumpUsersAndRolesTo false (.ok [])
      = (["-- Users, roles and permissions", "",
          "-- Warning: No access to role information. Skipping user and role dump.",
          "-- You may need superuser privileges to dump roles."], none) ∧
    ((dumpUsersAndRolesTo false (.ok [])).1.drop 2).length = 2 ∧
    (((dumpUsersAndRolesTo false (.ok [])).1.drop 2).all (fun l => strStarts l "--")) = true :=
  ⟨by decide, by decide, by decide⟩

/-- C2 (amended): if the initial role-introspection probe query fails, the
role serializer writes exactly two warning comment lines after the section
header, emits no CREATE ROLE statement, and returns success rather than an
error, so the overall run still succeeds. -/
theorem c2_probe_warning (rolesQ : Except String (List Role)) :
    dumpUsersAndRolesTo false rolesQ
      = (["-- Users, roles and permissions", "",
          "-- Warning: No access to role information. Skipping user and role dump.",
          "-- You may need superuser privileges to dump roles."], none) ∧
    ((dumpUsersAndRolesTo false rolesQ).1.all (fun l => !strStarts l "CREATE ROLE")) = true :=
  ⟨rfl, rfl⟩

/-- Modelled from the spec (§4.5): the role set the spec claims is emitted —
the union of the database's owning role, the current querying principal,
and every distinct owner of a table, sequence, or view outside system
namespaces, deduplicated with order of first discovery preserved. -/
def specClaimedRoleSet (dbOwner principal : String) (objectOwners : List String) : List String :=
  (dbOwner :: principal :: objectOwners).foldl
    (fun acc n => if acc.contains n then acc else acc ++ [n]) []

/-- A role owning nothing, used to exhibit that the code emits catalog
roles outside the spec's claimed role set. -/
def cexRole (n : String) : Role :=
  ⟨n, false, true, false, false, true, false, [], none, -1, none, [], []⟩

/-- C4 fails as stated: with a catalog holding roles alice (database owner),
bob (querying principal) and carol (owner of nothing), the code emits a
CREATE ROLE statement for all three — it dumps every role in pg_roles not
prefixed pg_, while the claimed union of owner, principal and object owners
excludes carol. -/
theorem c4_role_set_counterexample :
    ((dumpUsersAndRolesTo true (.ok [cexRole "alice", cexRole "bob", cexRole "carol"])).1.filter
        (fun l => strStarts l "CREATE ROLE ")).length = 3 ∧
    ("CREATE ROLE carol NOSUPERUSER INHERIT NOCREATEROLE NOCREATEDB LOGIN NOREPLICATION;")
      ∈ (dumpUsersAndRolesTo true (.ok [cexRole "alice", cexRole "bob", cexRole "carol"])).1 ∧
    specClaimedRoleSet "alice" "bob" [] = ["alice", "bob"] ∧
    "carol" ∉ specClaimedRoleSet "alice" "bob" [] :=
  ⟨by decide, by decide, by decide, by decide⟩

theorem filterCreate_pwdLines (r : Role) :
    (pwdLines r).filter (fun l => strStarts l "CREATE ROLE ") = [] := by
  unfold pwdLines
  rcases r.pwdRow with _ | op
  · rfl
  · rcases op with _ | p
    · rfl
    · by_cases h : strStarts p "md5" = true <;> simp [h] <;> rfl

theorem filterCreate_memberLines (r : Role) :
    (memberLines r).filter (fun l => strStarts l "CREATE ROLE ") = [] := by
  unfold memberLines
  by_cases h : r.memberof.isEmpty = true <;> simp [h] <;> rfl

theorem filterCreate_descLines (r : Role) :
    (descLines r).filter (fun l => strStarts l "CREATE ROLE ") = [] := by
  unfold descLines
  rcases r.description with _ | d
  · rfl
  · show List.filter _ [_] = []
    rfl

theorem filterCreate_schemaPrivs (n : String) (l : List (String × List String)) :
    (l.map (schemaPrivLine n)).filter (fun x => strStarts x "CREATE ROLE ") = [] := by
  induction l with
  | nil => rfl
  | cons a t ih =>
    have hp : strStarts (schemaPrivLine n a) "CREATE ROLE " = false := rfl
    simp [List.filter_cons, hp, ih]

theorem filterCreate_tablePrivs (n : String) (l : List (String × String × List String)) :
    (l.map (tablePrivLine n)).filter (fun x => strStarts x "CREATE ROLE ") = [] := by
  induction l with
  | nil => rfl
  | cons a t ih =>
    have hp : strStarts (tablePrivLine n a) "CREATE ROLE " = false := rfl
    simp [List.filter_cons, hp, ih]

theorem roleBlock_filterCreate (r : Role) :
    (roleBlock r).filter (fun l => strStarts l "CREATE ROLE ") = [createRoleStmt r] := by
  have h1 : strStarts ("-- Role: " ++ r.rolname) "CREATE ROLE " = false := rfl
  have h2 : strStarts (createRoleStmt r) "CREATE ROLE " = true := rfl
  have h3 : strStarts "" "CREATE ROLE " = false := rfl
  simp [roleBlock, List.filter_cons, List.filter_append, h1, h2, h3,
    filterCreate_pwdLines, filterCreate_memberLines, filterCreate_descLines,
    filterCreate_schemaPrivs, filterCreate_tablePrivs]

theorem rolesLoop_filterCreate (roles : List Role) :
    (rolesLoop roles).filter (fun l => strStarts l "CREATE ROLE ")
      = (roles.filter (fun r => !strStarts r.rolname "pg_")).map createRoleStmt := by
  induction roles with
  | nil => rfl
  | cons r t ih =>
    simp only [rolesLoop, List.flatMap_cons, List.filter_append, List.filter_cons] at *
    cases hb : strStarts r.rolname "pg_" <;>
      simp [hb, roleBlock_filterCreate, ih]

/-- C4 (amended): the set of roles the role serializer emits CREATE ROLE
statements for equals every role of the catalog whose name does not begin
with pg_, in the order the role query returns them (ordered by role name) —
not the union of database owner, querying principal and object owners. -/
theorem c4_role_set (roles : List Role) :
    (dumpUsersAndRolesTo true (.ok roles)).1.filter (fun l => strStarts l "CREATE ROLE ")
      = (roles.filter (fun r => !strStarts r.rolname "pg_")).map createRoleStmt := by
  have h1 : strStarts "-- Users, roles and permissions" "CREATE ROLE " = false := by decide
  have h2 : strStarts "" "CREATE ROLE " = false := by decide
  simp [dumpUsersAndRolesTo, List.filter_cons, h1, h2, rolesLoop_filterCreate]

theorem charsLead_self_append (l t : List Char) : charsLead l (l ++ t) = true := by
  induction l with
  | nil => rfl
  | cons a as ih => simp [charsLead, ih]

theorem charsLead_append_cancel (c p s : List Char) :
    charsLead (c ++ p) (c ++ s) = charsLead p s := by
  induction c with
  | nil => rfl
  | cons a as ih => simp [charsLead, ih]

theorem charsLead_pg_after (l t : List Char) (h : charsLead "pg_".data l = false)
    (ht : t.head? = some ' ') : charsLead "pg_".data (l ++ t) = false := by
  have hd : "pg_".data = ['p', 'g', '_'] := rfl
  rw [hd] at h ⊢
  rcases t with _ | ⟨c, t'⟩
  · simp at ht
  · have hc : c = ' ' := by simpa using ht
    subst hc
    have hg : ('g' == ' ') = false := by decide
    have hu : ('_' == ' ') = false := by decide
    match l with
    | [] => rfl
    | [a] => simp [charsLead, hg]
    | [a, b] => simp [charsLead, hu]
    | a :: b :: c' :: rest =>
      simp only [charsLead, List.cons_append] at h ⊢
      exact h

theorem createRoleStmt_data (r : Role) :
    (createRoleStmt r).data
      = "CREATE ROLE ".data ++ (r.rolname.data ++
          ((if r.rolsuper then " SUPERUSER" else " NOSUPERUSER") ++
           ((if r.rolinherit then " INHERIT" else " NOINHERIT") ++
            ((if r.rolcreaterole then " CREATEROLE" else " NOCREATEROLE") ++
             ((if r.rolcreatedb then " CREATEDB" else " NOCREATEDB") ++
              ((if r.rolcanlogin then " LOGIN" else " NOLOGIN") ++
               ((if r.rolreplication then " REPLICATION" else " NOREPLICATION") ++
                ((if 0 ≤ r.rolconnlimit then " CONNECTION LIMIT " ++ toString r.rolconnlimit
                  else "") ++ ";"))))))).data) := by
  simp [createRoleStmt, String.data_append, List.append_assoc]

theorem createRole_not_pg (r : Role) (h : strStarts r.rolname "pg_" = false) :
    strStarts (createRoleStmt r) "CREATE ROLE pg_" = false := by
  unfold strStarts at h ⊢
  rw [createRoleStmt_data]
  have hsplit : "CREATE ROLE pg_".data = "CREATE ROLE ".data ++ "pg_".data := by decide
  rw [hsplit, charsLead_append_cancel]
  apply charsLead_pg_after _ _ h
  rw [String.data_append, List.head?_append]
  cases r.rolsuper <;> rfl

theorem pwdLines_no_pg (r : Role) :
    ∀ l ∈ pwdLines r, strStarts l "CREATE ROLE pg_" = false := by
  intro l hl
  unfold pwdLines at hl
  split at hl
  · split at hl
    · have hle := List.mem_singleton.mp hl
      subst hle
      rfl
    · simp at hl
  · simp at hl

theorem memberLines_no_pg (r : Role) :
    ∀ l ∈ memberLines r, strStarts l "CREATE ROLE pg_" = false := by
  intro l hl
  unfold memberLines at hl
  split at hl
  · simp at hl
  · have hle := List.mem_singleton.mp hl
    subst hle
    rfl

theorem descLines_no_pg (r : Role) :
    ∀ l ∈ descLines r, strStarts l "CREATE ROLE pg_" = false := by
  intro l hl
  unfold descLines at hl
  split at hl
  · have hle := List.mem_singleton.mp hl
    subst hle
    rfl
  · simp at hl

theorem roleBlock_no_pg (r : Role) (h : strStarts r.rolname "pg_" = false) :
    ∀ l ∈ roleBlock r, strStarts l "CREATE ROLE pg_" = false := by
  intro l hl
  unfold roleBlock at hl
  rcases List.mem_cons.mp hl with rfl | hl
  · rfl
  rcases List.mem_cons.mp hl with rfl | hl
  · exact createRole_not_pg r h
  rcases List.mem_append.mp hl with hl | hl
  · rcases List.mem_append.mp hl with hl | hl
    · rcases List.mem_append.mp hl with hl | hl
      · exact pwdLines_no_pg r l hl
      · exact memberLines_no_pg r l hl
    · exact descLines_no_pg r l hl
  rcases List.mem_cons.mp hl with rfl | hl
  · rfl
  rcases List.mem_append.mp hl with hl | hl
  · rcases List.mem_append.mp hl with hl | hl
    · obtain ⟨a, _, rfl⟩ := List.mem_map.mp hl
      rfl
    · obtain ⟨a, _, rfl⟩ := List.mem_map.mp hl
      rfl
  · have hle := List.mem_singleton.mp hl
    subst hle
    rfl

theorem rolesLoop_no_pg (roles : List Role) :
    ∀ l ∈ rolesLoop roles, strStarts l "CREATE ROLE pg_" = false := by
  induction roles with
  | nil => intro l hl; simp [rolesLoop] at hl
  | cons r t ih =>
    intro l hl
    unfold rolesLoop at hl
    rw [List.flatMap_cons] at hl
    rcases List.mem_append.mp hl with hl | hl
    · cases hbv : strStarts r.rolname "pg_"
      · rw [hbv] at hl
        simp at hl
        exact roleBlock_no_pg r hbv l hl
      · rw [hbv] at hl
        simp at hl
    · exact ih l hl

/-- C8: for every dump, however many roles of the catalog carry the reserved
internal prefix pg_, no such role name ever appears in a CREATE ROLE
statement of the output: no emitted line even begins with that form. -/
theorem c8_no_pg_role (probeOk : Bool) (rolesQ : Except String (List Role)) (l : String)
    (hl : l ∈ (dumpUsersAndRolesTo probeOk rolesQ).1) :
    strStarts l "CREATE ROLE pg_" = false := by
  unfold dumpUsersAndRolesTo at hl
  cases probeOk
  · simp at hl
    rcases hl with rfl | rfl | rfl | rfl <;> decide
  · rcases rolesQ with e | roles
    · simp at hl
      rcases hl with rfl | rfl <;> decide
    · simp at hl
      rcases hl with rfl | rfl | hl
      · decide
      · decide
      · exact rolesLoop_no_pg roles l hl

/-- C8 witness: in a concrete dump whose catalog holds both pg_monitor and
alice, the CREATE ROLE line actually emitted for alice does not begin with
the forbidden prefix. -/
theorem c8_no_pg_role_witness :
    strStarts "CREATE ROLE alice NOSUPERUSER INHERIT NOCREATEROLE NOCREATEDB LOGIN NOREPLICATION;"
      "CREATE ROLE pg_" = false :=
  c8_no_pg_role true (.ok [cexRole "pg_monitor", cexRole "alice"])
    "CREATE ROLE alice NOSUPERUSER INHERIT NOCREATEROLE NOCREATEDB LOGIN NOREPLICATION;"
    (by decide)

/-- Model of Rust `s.ends_with(p)`: suffix test through reversed character
lists. -/
def strEnds (s p : String) : Bool := charsLead p.data.reverse s.data.reverse

theorem strEnds_append (a b : String) : strEnds (a ++ b) b = true := by
  unfold strEnds
  rw [String.data_append, List.reverse_append]
  exact charsLead_self_append _ _

theorem digitChar_isDigit (n : Nat) (h : n < 10) : (Nat.digitChar n).isDigit = true := by
  interval_cases n <;> decide

theorem toDigitsCore_step (b fuel n : Nat) (acc : List Char) :
    Nat.toDigitsCore b (fuel+1) n acc
      = if n / b = 0 then (n % b).digitChar :: acc
        else Nat.toDigitsCore b fuel (n / b) ((n % b).digitChar :: acc) := rfl

theorem toDigitsCore_digits :
    ∀ (fuel n : Nat) (acc : List Char), (∀ c ∈ acc, c.isDigit = true) →
      ∀ c ∈ Nat.toDigitsCore 10 fuel n acc, c.isDigit = true := by
  intro fuel
  induction fuel with
  | zero => intro n acc hacc c hc; exact hacc c hc
  | succ fuel ih =>
    intro n acc hacc c hc
    rw [toDigitsCore_step] at hc
    have hacc2 : ∀ x ∈ (n % 10).digitChar :: acc, x.isDigit = true := by
      intro x hx
      rcases List.mem_cons.mp hx with rfl | hx
      · exact digitChar_isDigit _ (Nat.mod_lt _ (by norm_num))
      · exact hacc x hx
    split at hc
    · exact hacc2 c hc
    · exact ih (n / 10) _ hacc2 c hc

theorem toDigitsCore_ne_nil (b : Nat) :
    ∀ (fuel n : Nat) (acc : List Char), acc ≠ [] → Nat.toDigitsCore b fuel n acc ≠ [] := by
  intro fuel
  induction fuel with
  | zero => intro n acc hacc; exact hacc
  | succ fuel ih =>
    intro n acc hacc
    rw [toDigitsCore_step]
    split
    · simp
    · exact ih (n / b) _ (by simp)

theorem natRepr_ne_nil (n : Nat) : (Nat.repr n).data ≠ [] := by
  have hdata : (Nat.repr n).data = Nat.toDigits 10 n := rfl
  rw [hdata]
  unfold Nat.toDigits
  rw [toDigitsCore_step]
  split
  · simp
  · exact toDigitsCore_ne_nil 10 n (n / 10) _ (by simp)

theorem natRepr_digits (n : Nat) : ∀ c ∈ (Nat.repr n).data, c.isDigit = true := by
  have hdata : (Nat.repr n).data = Nat.toDigits 10 n := rfl
  rw [hdata]
  exact toDigitsCore_digits (n+1) n [] (by simp)

/-- C10: a CREATE ROLE statement ends with the CONNECTION LIMIT clause for
the role's connection limit n exactly when n is nonnegative; a role with a
negative (unlimited, -1) connection limit gets the six flag pairs and no
CONNECTION LIMIT clause. -/
theorem c10_connection_limit (r : Role) :
    (strEnds (createRoleStmt r) (" CONNECTION LIMIT " ++ toString r.rolconnlimit ++ ";")
      = decide (0 ≤ r.rolconnlimit)) ∧
    (r.rolconnlimit < 0 →
      createRoleStmt r
        = "CREATE ROLE " ++ r.rolname ++
            (if r.rolsuper then " SUPERUSER" else " NOSUPERUSER") ++
            (if r.rolinherit then " INHERIT" else " NOINHERIT") ++
            (if r.rolcreaterole then " CREATEROLE" else " NOCREATEROLE") ++
            (if r.rolcreatedb then " CREATEDB" else " NOCREATEDB") ++
            (if r.rolcanlogin then " LOGIN" else " NOLOGIN") ++
            (if r.rolreplication then " REPLICATION" else " NOREPLICATION") ++ ";") := by
  refine ⟨?_, ?_⟩
  case refine_2 =>
    intro hneg
    unfold createRoleStmt
    rw [if_neg (Int.not_le.mpr hneg), String.append_empty]
  by_cases h : 0 ≤ r.rolconnlimit
  · rw [decide_eq_true h]
    have hs : createRoleStmt r
        = ("CREATE ROLE " ++ r.rolname ++
            (if r.rolsuper then " SUPERUSER" else " NOSUPERUSER") ++
            (if r.rolinherit then " INHERIT" else " NOINHERIT") ++
            (if r.rolcreaterole then " CREATEROLE" else " NOCREATEROLE") ++
            (if r.rolcreatedb then " CREATEDB" else " NOCREATEDB") ++
            (if r.rolcanlogin then " LOGIN" else " NOLOGIN") ++
            (if r.rolreplication then " REPLICATION" else " NOREPLICATION")) ++
          (" CONNECTION LIMIT " ++ toString r.rolconnlimit ++ ";") := by
      unfold createRoleStmt
      rw [if_pos h]
      simp only [String.append_assoc]
    rw [hs]
    exact strEnds_append _ _
  · rw [decide_eq_false h]
    obtain ⟨m, hm⟩ : ∃ m, r.rolconnlimit = Int.negSucc m := by
      cases hcl : r.rolconnlimit with
      | ofNat p => exact absurd (hcl ▸ Int.ofNat_nonneg p) h
      | negSucc m => exact ⟨m, rfl⟩
    have hLne : (Nat.repr (m+1)).data ≠ [] := natRepr_ne_nil (m+1)
    obtain ⟨d, dtl, hrev⟩ : ∃ d dtl, (Nat.repr (m+1)).data.reverse = d :: dtl := by
      cases hr2 : (Nat.repr (m+1)).data.reverse with
      | nil => exact absurd (List.reverse_eq_nil_iff.mp hr2) hLne
      | cons d dtl => exact ⟨d, dtl, rfl⟩
    have hd : d.isDigit = true := by
      apply natRepr_digits (m+1)
      exact List.mem_reverse.mp (hrev ▸ List.mem_cons_self d dtl)
    have hdn : (d == 'N') = false := by
      apply beq_eq_false_iff_ne.mpr
      intro he
      rw [he] at hd
      exact absurd hd (by decide)
    unfold strEnds
    rw [hm]
    have htos : toString (Int.negSucc m) = "-" ++ Nat.repr (m+1) := rfl
    rw [htos]
    have hp : (" CONNECTION LIMIT " ++ ("-" ++ Nat.repr (m+1)) ++ ";").data.reverse
        = ';' :: d :: (dtl ++ '-' :: " CONNECTION LIMIT ".data.reverse) := by
      simp [String.data_append, List.reverse_append, hrev]
    have hs : (createRoleStmt r).data.reverse
        = ';' :: ((if r.rolreplication then " REPLICATION" else " NOREPLICATION").data.reverse
            ++ ("CREATE ROLE " ++ r.rolname ++
                (if r.rolsuper then " SUPERUSER" else " NOSUPERUSER") ++
                (if r.rolinherit then " INHERIT" else " NOINHERIT") ++
                (if r.rolcreaterole then " CREATEROLE" else " NOCREATEROLE") ++
                (if r.rolcreatedb then " CREATEDB" else " NOCREATEDB") ++
                (if r.rolcanlogin then " LOGIN" else " NOLOGIN")).data.reverse) := by
      unfold createRoleStmt
      rw [if_neg h]
      simp [String.data_append, List.reverse_append]
    rw [hp, hs]
    cases hrep : r.rolreplication
    · rw [if_neg (by simp [hrep])]
      have hflit : (" NOREPLICATION").data.reverse = 'N' :: "OITACILPERON ".data := by decide
      rw [hflit, List.cons_append]
      simp [charsLead, hdn]
    · rw [if_pos (by simp [hrep])]
      have hflit : (" REPLICATION").data.reverse = 'N' :: "OITACILPER ".data := by decide
      rw [hflit, List.cons_append]
      simp [charsLead, hdn]

/-- C10 witness: a role whose connection limit is -1 receives the six flag
pairs and no CONNECTION LIMIT clause. -/
theorem c10_connection_limit_witness :
    createRoleStmt (cexRole "carol")
      = "CREATE ROLE carol NOSUPERUSER INHERIT NOCREATEROLE NOCREATEDB LOGIN NOREPLICATION;" := by
  rw [(c10_connection_limit (cexRole "carol")).2 (by decide)]
  decide

/-- The retry loop of `connect_with_retry` (lines 50-80 of `src/main.rs`),
modelled over a function giving the outcome of each connection attempt
(0-indexed, so attempt n counted from 1 is `f (n-1)`). The while guard
`retries < max_retries` is embedded as the structural fuel
`fuel = maxRetries - retries`: fuel zero is exactly the loop exit, where
the last observed error (or the fabricated connection-refused error when
no attempt ran) is returned. Returns the final result and the list of
backoff delays slept, in seconds: after the failure of attempt number
`retries + 1` the code sleeps `2 ^ min (retries + 1) 4` seconds provided
further attempts remain. -/
def retryLoop (f : Nat → Except String Unit) (maxRetries : Nat) :
    Nat → Nat → Option String → Except String Unit × List Nat
  | 0, _, lastError =>
    (match lastError with
     | some e => .error e
     | none => .error "Failed to connect to the database after retries", [])
  | fuel + 1, retries, lastError =>
    match f retries with
    | .ok c => (.ok c, [])
    | .error e =>
      if retries + 1 < maxRetries then
        let rest := retryLoop f maxRetries fuel (retries + 1) (some e)
        (rest.1, 2 ^ (min (retries + 1) 4) :: rest.2)
      else
        retryLoop f maxRetries fuel (retries + 1) (some e)

/-- Model of `connect_with_retry` itself: the loop started with zero
retries (hence full fuel) and no recorded error. -/
def connectWithRetry (f : Nat → Except String Unit) (maxRetries : Nat) :
    Except String Unit × List Nat :=
  retryLoop f maxRetries maxRetries 0 none

theorem two_pow_min_four (n : Nat) : 2 ^ (min n 4) = min (2 ^ n) 16 := by
  rcases le_total n 4 with h | h
  · rw [min_eq_left h]
    have h16 : (2:Nat) ^ n ≤ 16 := by
      calc (2:Nat) ^ n ≤ 2 ^ 4 := Nat.pow_le_pow_right (by norm_num) h
      _ = 16 := by norm_num
    rw [min_eq_left h16]
  · rw [min_eq_right h]
    have h16 : 16 ≤ (2:Nat) ^ n := by
      calc (16:Nat) = 2 ^ 4 := by norm_num
      _ ≤ 2 ^ n := Nat.pow_le_pow_right (by norm_num) h
    rw [min_eq_right h16]
    norm_num

theorem retryLoop_all_fail (f : Nat → Except String Unit) (e : Nat → String) (max : Nat)
    (hfail : ∀ i, i < max → f i = .error (e i)) :
    ∀ (fuel r : Nat), max - r = fuel → r < max → ∀ le, retryLoop f max fuel r le
      = (.error (e (max - 1)),
         (List.range' (r + 1) (max - 1 - r)).map (fun n => 2 ^ (min n 4))) := by
  intro fuel
  induction fuel with
  | zero => intro r hk hr le; omega
  | succ fuel ih =>
    intro r hk hr le
    rw [retryLoop]
    simp only [hfail r hr]
    by_cases h2 : r + 1 < max
    · rw [if_pos h2]
      have hrec := ih (r + 1) (by omega) h2 (some (e r))
      rw [hrec]
      have hlen : max - 1 - r = (max - 1 - (r + 1)) + 1 := by omega
      rw [hlen, List.range'_succ]
      simp
    · rw [if_neg h2]
      have hf0 : fuel = 0 := by omega
      subst hf0
      rw [retryLoop]
      have h0 : max - 1 - r = 0 := by omega
      have hr1 : max - 1 = r := by omega
      rw [h0, hr1]
      simp [List.range']

/-- C9: when every connection attempt fails, the supervisor sleeps exactly
min(2^n, 16) seconds after failed attempt n (n counted from 1, for each n
below maxAttempts), and after maxAttempts consecutive failures returns the
error observed on the last attempt, not any earlier one. -/
theorem c9_retry_backoff (f : Nat → Except String Unit) (e : Nat → String) (maxAttempts : Nat)
    (hmax : 0 < maxAttempts) (hfail : ∀ i, i < maxAttempts → f i = .error (e i)) :
    connectWithRetry f maxAttempts
      = (.error (e (maxAttempts - 1)),
         (List.range (maxAttempts - 1)).map (fun i => min (2 ^ (i + 1)) 16)) := by
  have h := retryLoop_all_fail f e maxAttempts hfail maxAttempts 0 rfl hmax none
  unfold connectWithRetry
  rw [h]
  congr 1
  rw [List.range'_eq_map_range, List.map_map]
  apply List.map_congr_left
  intro i _
  show 2 ^ min (1 + i) 4 = min (2 ^ (i + 1)) 16
  rw [two_pow_min_four, Nat.add_comm]

/-- C9 witness: three attempts all refused — delays of 2 then 4 seconds,
and the error surfaced is the last attempt's. -/
theorem c9_retry_backoff_witness :
    connectWithRetry (fun i => .error ("refused " ++ toString i)) 3
      = (.error "refused 2", [2, 4]) := by
  rw [c9_retry_backoff (fun i => .error ("refused " ++ toString i))
    (fun i => "refused " ++ toString i) 3 (by decide) (fun i _ => rfl)]
  rfl

end DbDump
